import Mathlib

/-!
Shallow embedding of `src/server.js` (RAIPHY AdManager relay API).

The JavaScript source is a thin Express app with three endpoints.  We model
the pure computations (CSV aggregation, date parsing, report-job
construction, substring-based error classification, credential
normalization) directly, and the effectful pipeline (auth, report
submission, status polling, download) as explicit functions over an
environment record whose fields stand for the external SDK calls, each
returning `Except String α` (an exception carries the JS error message).

JavaScript numbers that matter here are modelled as `Rat` (the inputs the
spec reasons about are exact decimals), with `Option` capturing `NaN`
results of `parseFloat` / `parseInt`.
-/

namespace AdManager

/-! ### Models of the JavaScript string/number primitives used by the code -/

/-- Whitespace characters skipped by JS `parseFloat`/`parseInt` and matched
by `String.prototype.trim`. -/
def jsWhitespace (c : Char) : Bool :=
  c = ' ' || c = '\t' || c = '\n' || c = '\r' || c = '\x0b' || c = '\x0c'

/-- Value of a list of decimal digit characters. -/
def digitsToNat (ds : List Char) : Nat :=
  ds.foldl (fun a c => 10 * a + (c.toNat - 48)) 0

/-- Power of ten as a rational, for an integer exponent. -/
def pow10 (e : Int) : Rat :=
  match e with
  | .ofNat n => (10 : Rat) ^ n
  | .negSucc n => 1 / (10 : Rat) ^ (n + 1)

/-- Exponent part accepted after `e`/`E` by JS `parseFloat`; an exponent
with no digits contributes nothing (the longest valid numeric prefix ends
before the `e`). -/
def readExp (cs : List Char) : Int :=
  match cs with
  | '-' :: rest =>
      if rest.takeWhile Char.isDigit = [] then 0
      else -(digitsToNat (rest.takeWhile Char.isDigit) : Int)
  | '+' :: rest =>
      if rest.takeWhile Char.isDigit = [] then 0
      else (digitsToNat (rest.takeWhile Char.isDigit) : Int)
  | _ =>
      if cs.takeWhile Char.isDigit = [] then 0
      else (digitsToNat (cs.takeWhile Char.isDigit) : Int)

/-- Syntactic layer of JS `parseFloat`: skip leading whitespace, optional
sign, decimal digits, optional fraction, optional exponent; `none` models
`NaN` (no numeric prefix at all).  Returns (negative?, integer digits,
fraction digits, exponent).  `Infinity` literals are not modelled; no input
considered here uses them. -/
def jsParseFloatParts (s : String) : Option (Bool × List Char × List Char × Int) :=
  let cs := s.data.dropWhile jsWhitespace
  let signRest : Bool × List Char :=
    match cs with
    | '-' :: rest => (true, rest)
    | '+' :: rest => (false, rest)
    | _ => (false, cs)
  let intDs := signRest.2.takeWhile Char.isDigit
  let afterInt := signRest.2.dropWhile Char.isDigit
  let fracRest : List Char × List Char :=
    match afterInt with
    | '.' :: rest => (rest.takeWhile Char.isDigit, rest.dropWhile Char.isDigit)
    | _ => ([], afterInt)
  if intDs = [] ∧ fracRest.1 = [] then none
  else
    let expPart : Int :=
      match fracRest.2 with
      | 'e' :: rest => readExp rest
      | 'E' :: rest => readExp rest
      | _ => 0
    some (signRest.1, intDs, fracRest.1, expPart)

/-- Numeric value of the parts recognized by `jsParseFloatParts`. -/
def ratValue (neg : Bool) (intDs fracDs : List Char) (e : Int) : Rat :=
  (if neg then (-1 : Rat) else 1) *
    ((digitsToNat intDs : Rat) + (digitsToNat fracDs : Rat) / (10 : Rat) ^ fracDs.length) *
    pow10 e

/-- Model of JS `parseFloat` as an exact rational. -/
def jsParseFloat (s : String) : Option Rat :=
  (jsParseFloatParts s).map fun p => ratValue p.1 p.2.1 p.2.2.1 p.2.2.2

/-- Model of the JS expression `parseFloat(x) || 0`: `NaN` (and `0` itself)
collapse to `0`. -/
def jsParseFloatOr0 (s : String) : Rat :=
  (jsParseFloat s).getD 0

/-- Model of JS `parseInt` with the default radix on decimal input: skip
leading whitespace, optional sign, longest digit prefix; `none` models
`NaN`.  (The hexadecimal `0x` prefix is not modelled; no input considered
here uses it.) -/
def jsParseInt (s : String) : Option Int :=
  let cs := s.data.dropWhile jsWhitespace
  let signRest : Int × List Char :=
    match cs with
    | '-' :: rest => (-1, rest)
    | '+' :: rest => (1, rest)
    | _ => (1, cs)
  let ds := signRest.2.takeWhile Char.isDigit
  if ds = [] then none else some (signRest.1 * (digitsToNat ds : Int))

/-- Model of JS `String.prototype.split` with a single-character separator:
`"".split(c)` is `[""]`, and each separator occurrence opens a new field. -/
def splitOnChar (sep : Char) : List Char → List (List Char)
  | [] => [[]]
  | c :: cs =>
      if c = sep then [] :: splitOnChar sep cs
      else
        match splitOnChar sep cs with
        | [] => [[c]]
        | g :: gs => (c :: g) :: gs

/-- String-level wrapper for `splitOnChar`. -/
def jsSplit (sep : Char) (s : String) : List String :=
  (splitOnChar sep s.data).map String.mk

/-- Boolean prefix test on character lists. -/
def listPrefixOf : List Char → List Char → Bool
  | [], _ => true
  | _ :: _, [] => false
  | c :: cs, d :: ds => decide (c = d) && listPrefixOf cs ds

/-- Boolean substring test on character lists; models JS
`String.prototype.includes` (case-sensitive). -/
def listContains (pat : List Char) : List Char → Bool
  | [] => listPrefixOf pat []
  | c :: cs => listPrefixOf pat (c :: cs) || listContains pat cs

/-- Model of JS `s.includes(pat)` (case-sensitive substring test). -/
def strContains (s pat : String) : Bool :=
  listContains pat.data s.data

/-- Fueled global replacement on character lists, scanning left to right
and replacing each non-overlapping occurrence of `pat`; the fuel is the
input length, which always suffices because every step consumes at least
one character. -/
def replaceAux (pat rep : List Char) : Nat → List Char → List Char
  | _, [] => []
  | 0, l => l
  | fuel + 1, c :: cs =>
      if pat ≠ [] ∧ listPrefixOf pat (c :: cs) = true then
        rep ++ replaceAux pat rep fuel (cs.drop (pat.length - 1))
      else
        c :: replaceAux pat rep fuel cs

/-- Model of JS `s.replace(/pat/g, rep)` for a literal pattern: replace
every occurrence of `pat` in `s` by `rep`. -/
def jsReplaceAll (s pat rep : String) : String :=
  ⟨replaceAux pat.data rep.data s.data.length s.data⟩

/-- JS falsiness of a string-or-undefined value: `undefined` and `""` are
falsy, every other string is truthy. -/
def jsFalsyOpt (o : Option String) : Bool :=
  match o with
  | none => true
  | some s => decide (s = "")

/-- Model of the JS test `line.trim() === ''`: the line consists only of
whitespace. -/
def jsBlank (s : String) : Bool :=
  s.data.all jsWhitespace

/-! ### Credential Provider (`getGoogleAuth`, server.js lines 24-42) -/

/-- The two OAuth scopes hard-coded in `getGoogleAuth`. -/
def authScopes : List String :=
  ["https://www.googleapis.com/auth/dfp",
   "https://www.googleapis.com/auth/adexchange.seller.readonly"]

/-- Credential object passed to `google.auth.GoogleAuth`. -/
structure Credentials where
  client_email : String
  private_key : String
  scopes : List String
deriving DecidableEq

/-- Error message thrown by `getGoogleAuth` when credentials are missing. -/
def credErrorMsg : String := "Credenciais do Service Account não configuradas"

/-- Model of `getGoogleAuth`: read the two environment variables, normalize
escaped newlines in the key, and fail if either value is falsy (absent or
empty).  The falsiness check on the key is performed, as in the source, on
the value after replacement. -/
def getGoogleAuth (emailVar keyVar : Option String) : Except String Credentials :=
  let serviceAccountEmail := emailVar
  let privateKey := keyVar.map (fun k => jsReplaceAll k "\\n" "\n")
  if jsFalsyOpt serviceAccountEmail || jsFalsyOpt privateKey then
    .error credErrorMsg
  else
    .ok { client_email := serviceAccountEmail.getD ""
          private_key := privateKey.getD ""
          scopes := authScopes }

/-! ### Report job construction (server.js lines 128-147) -/

/-- One date object of the report query; `none` components model `NaN`
produced by `parseInt` on malformed input. -/
structure ReportDate where
  year : Option Int
  month : Option Int
  day : Option Int
deriving DecidableEq

/-- The report job object passed to `reportService.runReportJob`. -/
structure ReportJob where
  dimensions : List String
  columns : List String
  dateRangeType : String
  startDate : ReportDate
  endDate : ReportDate
  statementQuery : String
deriving DecidableEq

/-- Component i of a date string split on dashes, fed to parseInt; an
out-of-range index yields undefined, whose parseInt is NaN, modelled here
by parsing the empty string. -/
def parseDatePart (s : String) (i : Nat) : Option Int :=
  jsParseInt ((jsSplit '-' s).getD i "")

/-- The report job literal built by the `/admanager-revenue` handler. -/
def buildReportJob (utmCampaign startDate endDate : String) : ReportJob :=
  { dimensions := ["DATE", "AD_UNIT_NAME"]
    columns := ["AD_EXCHANGE_REVENUE"]
    dateRangeType := "CUSTOM_DATE"
    startDate :=
      { year := parseDatePart startDate 0
        month := parseDatePart startDate 1
        day := parseDatePart startDate 2 }
    endDate :=
      { year := parseDatePart endDate 0
        month := parseDatePart endDate 1
        day := parseDatePart endDate 2 }
    statementQuery := "WHERE AD_UNIT_NAME LIKE \x27%" ++ utmCampaign ++ "%\x27" }

/-! ### Polling loop (server.js lines 153-170) -/

/-- Error message thrown when the report never completes. -/
def timeoutMsg : String := "Timeout ao gerar relatório do AdManager"

/-- The `while (!isReady && attempts < maxAttempts)` loop: `fuel` is the
number of remaining allowed attempts, `attempts` the count so far.  Each
iteration performs one status check (which may itself fail); the loop ends
with `isReady = true` on a `COMPLETED` status, or `isReady = false` when
the attempt budget is exhausted.  The returned number is the final value of
`attempts`, i.e. the number of status checks performed. -/
def pollLoop (getStatus : Nat → Except String String) : Nat → Nat → Except String (Bool × Nat)
  | 0, attempts => .ok (false, attempts)
  | fuel + 1, attempts =>
      match getStatus attempts with
      | .error e => .error e
      | .ok status =>
          if decide (status = "COMPLETED") then .ok (true, attempts + 1)
          else pollLoop getStatus fuel (attempts + 1)

/-- The maxAttempts constant from the source. -/
def maxAttempts : Nat := 30

/-- The polling phase: run the loop from `attempts = 0` with the full
budget and turn a non-ready outcome into the timeout error (`if (!isReady)
throw ...`).  On success, returns the number of status checks performed. -/
def pollReport (getStatus : Nat → Except String String) : Except String Nat :=
  match pollLoop getStatus maxAttempts 0 with
  | .error e => .error e
  | .ok (true, attempts) => .ok attempts
  | .ok (false, _) => .error timeoutMsg

/-! ### CSV aggregation (server.js lines 177-198) -/

/-- Revenue contributed by one CSV line: parseFloat of the third
comma-separated column, defaulting to 0. -/
def lineRevenue (line : String) : Rat :=
  jsParseFloatOr0 ((jsSplit ',' line).getD 2 "")

/-- The CSV aggregation of the handler: drop the header line, sum the 3rd
column of every non-blank line, and report `lines.length - 1` as
`recordsFound` (an `Int`, since the subtraction can go negative on an empty
split). -/
def aggregateCSV (csvData : String) : Rat × Int :=
  let lines := (jsSplit '\n' csvData).drop 1
  let totalRevenue :=
    lines.foldl (fun acc line => if jsBlank line then acc else acc + lineRevenue line) 0
  (totalRevenue, (lines.length : Int) - 1)

/-! ### The `/admanager-revenue` handler (server.js lines 108-213) -/

/-- External-world environment of the revenue handler: the two credential
environment variables plus one field per external SDK call, each returning
a result or a JS error message.  `getStatus` is indexed by job id and by
attempt number, so a run can observe different statuses across polls. -/
structure RevEnv where
  emailVar : Option String
  keyVar : Option String
  getClient : Except String Unit
  runReportJob : ReportJob → Except String Nat
  getStatus : Nat → Nat → Except String String
  getDownloadURL : Nat → Except String String
  fetchText : String → Except String String

/-- The report phase after a job object has been submitted: run the job,
poll, download, fetch, aggregate. -/
def runReportPhase (env : RevEnv) (job : ReportJob) : Except String (Rat × Int) :=
  match env.runReportJob job with
  | .error e => .error e
  | .ok jobId =>
      match pollReport (env.getStatus jobId) with
      | .error e => .error e
      | .ok _ =>
          match env.getDownloadURL jobId with
          | .error e => .error e
          | .ok url =>
              match env.fetchText url with
              | .error e => .error e
              | .ok csvData => .ok (aggregateCSV csvData)

/-- The whole `try` block after validation: auth, client, then the report
phase.  The second component records the job object passed to
`runReportJob`, when control reaches that call. -/
def runPipeline (env : RevEnv) (utm sd ed : String) :
    Except String (Rat × Int) × Option ReportJob :=
  match getGoogleAuth env.emailVar env.keyVar with
  | .error e => (.error e, none)
  | .ok _ =>
      match env.getClient with
      | .error e => (.error e, none)
      | .ok _ =>
          (runReportPhase env (buildReportJob utm sd ed), some (buildReportJob utm sd ed))

/-- Request body of `/admanager-revenue`; absent fields are `none`. -/
structure RevenueBody where
  utmCampaign : Option String
  websiteUrl : Option String
  startDate : Option String
  endDate : Option String
deriving DecidableEq

/-- Flattened JSON response of `/admanager-revenue`; `none` marks a key
absent from the payload. -/
structure RevResponse where
  status : Nat := 200
  success : Bool := true
  error : Option String := none
  totalRevenue : Option Rat := none
  source : Option String := none
  utmCampaign : Option String := none
  websiteUrl : Option (Option String) := none
  period : Option (String × String) := none
  recordsFound : Option Int := none
  requiresAuth : Option Bool := none
deriving DecidableEq

/-- 400 response for missing parameters. -/
def missingParamsMsg : String := "Parâmetros obrigatórios: utmCampaign, startDate, endDate"

/-- The fixed 400 payload of the validation branch. -/
def missingParamsResp : RevResponse :=
  { status := 400, success := false, error := some missingParamsMsg }

/-- The mock payload of the catch branch: HTTP 200, `success: true`,
zero revenue, `source: "mock"`, the error message, and the substring-based
`requiresAuth` heuristic. -/
def mockResp (msg : String) : RevResponse :=
  { status := 200, success := true, totalRevenue := some 0, source := some "mock",
    error := some msg,
    requiresAuth := some (strContains msg "auth" || strContains msg "credential") }

/-- The `/admanager-revenue` handler: falsiness validation of the three
required fields, then the pipeline; any pipeline error is masked as the
mock response.  The second component is the job submitted to
`runReportJob`, if any. -/
def revenueStep (env : RevEnv) (b : RevenueBody) : RevResponse × Option ReportJob :=
  if jsFalsyOpt b.utmCampaign || jsFalsyOpt b.startDate || jsFalsyOpt b.endDate then
    (missingParamsResp, none)
  else
    let utm := b.utmCampaign.getD ""
    let sd := b.startDate.getD ""
    let ed := b.endDate.getD ""
    let pr := runPipeline env utm sd ed
    (match pr.1 with
     | .ok (total, recs) =>
         { status := 200, success := true, totalRevenue := some total, source := some "real",
           utmCampaign := some utm, websiteUrl := some b.websiteUrl,
           period := some (sd, ed), recordsFound := some recs }
     | .error msg => mockResp msg,
     pr.2)

/-! ### The `/test-connection` handler (server.js lines 54-105) -/

/-- Network metadata returned by `networkService.getCurrentNetwork`. -/
structure NetworkInfo where
  networkCode : String
  displayName : String
  timeZone : String
  currencyCode : String
  publisherId : String
  effectiveRootAdUnitId : String
deriving DecidableEq

/-- Environment of the `/test-connection` handler. -/
structure TestConnEnv where
  emailVar : Option String
  keyVar : Option String
  getClient : Except String Unit
  networkCodeVar : Option String
  getCurrentNetwork : Except String NetworkInfo

/-- Error thrown when the network code variable is falsy. -/
def networkCodeErrorMsg : String := "GOOGLE_ADMANAGER_NETWORK_CODE não configurado"

/-- The replacement error text used when the failure is classified as a
setup problem. -/
def setupErrorMsg : String :=
  "Credenciais do Service Account não configuradas. Configure as variáveis: GOOGLE_SERVICE_ACCOUNT_EMAIL, GOOGLE_SERVICE_ACCOUNT_PRIVATE_KEY, GOOGLE_ADMANAGER_NETWORK_CODE"

/-- The `try` block of `/test-connection`: auth, client, network-code
check, then the network metadata call. -/
def testConnPipeline (env : TestConnEnv) : Except String NetworkInfo :=
  match getGoogleAuth env.emailVar env.keyVar with
  | .error e => .error e
  | .ok _ =>
      match env.getClient with
      | .error e => .error e
      | .ok _ =>
          if jsFalsyOpt env.networkCodeVar then .error networkCodeErrorMsg
          else env.getCurrentNetwork

/-- Flattened JSON response of `/test-connection`. -/
structure TestConnResp where
  status : Nat := 200
  success : Bool := true
  networkInfo : Option NetworkInfo := none
  message : Option String := none
  error : Option String := none
  requiresSetup : Option Bool := none
deriving DecidableEq

/-- The `/test-connection` handler: success returns the network metadata;
a failure is classified by case-sensitive substring match on its message
(`não configurad` / `not configured`), mapping to 400 + `requiresSetup` +
a replaced error text, or to 500 with the original message. -/
def handleTestConnection (env : TestConnEnv) : TestConnResp :=
  match testConnPipeline env with
  | .ok network =>
      { status := 200, success := true, networkInfo := some network,
        message := some "Service Account conectado com sucesso!" }
  | .error msg =>
      let requiresSetup := strContains msg "não configurad" || strContains msg "not configured"
      let errorMessage := if requiresSetup then setupErrorMsg else msg
      { status := if requiresSetup then 400 else 500, success := false,
        error := some errorMessage, requiresSetup := some requiresSetup }

/-! ### Specification-side definitions -/

/-- All characters are decimal digits. -/
def allDigits (l : List Char) : Bool := l.all Char.isDigit

/-- Modelled from the spec (not from the code, which performs no such
check): a string "parses as a YYYY-MM-DD calendar date" — three
dash-separated all-digit groups of widths 4, 2, 2 with a plausible month
and day. -/
def specIsYYYYMMDD (s : String) : Bool :=
  match splitOnChar '-' s.data with
  | [y, m, d] =>
      allDigits y && allDigits m && allDigits d &&
      decide (y.length = 4) && decide (m.length = 2) && decide (d.length = 2) &&
      decide (1 ≤ digitsToNat m) && decide (digitsToNat m ≤ 12) &&
      decide (1 ≤ digitsToNat d) && decide (digitsToNat d ≤ 31)
  | _ => false


/-- The CSV body of the aggregation example in the spec. -/
def c1csv : String := "header\nA,B,12.5\nC,D,bad\nE,F,7.5"

/-- A fully succeeding environment whose report download yields `c1csv`. -/
def c1env : RevEnv :=
  { emailVar := some "svc@example.com", keyVar := some "KEY", getClient := .ok (),
    runReportJob := fun _ => .ok 1, getStatus := fun _ _ => .ok "COMPLETED",
    getDownloadURL := fun _ => .ok "https://example.com/report.csv",
    fetchText := fun _ => .ok c1csv }

/-- A valid request body for the aggregation example. -/
def c1body : RevenueBody :=
  ⟨some "summer", none, some "2024-01-01", some "2024-01-31"⟩


/-! ### Helper lemmas -/

theorem listPrefixOf_iff (p : List Char) : ∀ l : List Char, listPrefixOf p l = true ↔ p <+: l := by
  induction p with
  | nil => intro l; simp [listPrefixOf, List.nil_prefix]
  | cons c cs ih =>
      intro l
      cases l with
      | nil => simp [listPrefixOf]
      | cons d ds => simp [listPrefixOf, ih, List.cons_prefix_cons]

theorem listContains_iff (pat : List Char) : ∀ l : List Char, listContains pat l = true ↔ pat <:+: l := by
  intro l
  induction l with
  | nil => simp [listContains, listPrefixOf_iff, List.prefix_nil, List.infix_nil]
  | cons c cs ih => simp [listContains, listPrefixOf_iff, ih, List.infix_cons_iff]

theorem strContains_iff (s pat : String) : strContains s pat = true ↔ pat.data <:+: s.data :=
  listContains_iff pat.data s.data

theorem jsFalsyOpt_some_ne {s : String} (h : s ≠ "") : jsFalsyOpt (some s) = false := by
  simp [jsFalsyOpt, h]

theorem jsReplaceAll_empty (pat rep : String) : jsReplaceAll "" pat rep = "" := rfl

theorem replaceAux_cons_ne_nil {pat rep : List Char} (hrep : rep ≠ []) (fuel : Nat)
    (c : Char) (cs : List Char) : replaceAux pat rep (fuel + 1) (c :: cs) ≠ [] := by
  rw [replaceAux]
  split
  · intro h
    exact hrep (List.append_eq_nil.mp h).1
  · exact List.cons_ne_nil _ _

theorem jsReplaceAll_ne_empty {k pat rep : String} (hk : k ≠ "") (hrep : rep ≠ "") :
    jsReplaceAll k pat rep ≠ "" := by
  have hrd : rep.data ≠ [] := fun h => hrep (String.ext h)
  cases hd : k.data with
  | nil => exact absurd (String.ext hd) hk
  | cons c cs =>
      unfold jsReplaceAll
      rw [hd]
      intro hcontra
      have hnil : replaceAux pat.data rep.data (c :: cs).length (c :: cs) = [] :=
        congrArg String.data hcontra
      rw [List.length_cons] at hnil
      exact replaceAux_cons_ne_nil hrd cs.length c cs hnil

/-- Failure half of the `getGoogleAuth` contract. -/
theorem getGoogleAuth_falsy {emailVar keyVar : Option String}
    (h : emailVar = none ∨ emailVar = some "" ∨ keyVar = none ∨ keyVar = some "") :
    getGoogleAuth emailVar keyVar = .error credErrorMsg := by
  rcases h with rfl | rfl | rfl | rfl
  · rfl
  · simp [getGoogleAuth, jsFalsyOpt]
  · simp [getGoogleAuth, jsFalsyOpt]
  · simp [getGoogleAuth, jsFalsyOpt, jsReplaceAll_empty]

/-- Success half of the `getGoogleAuth` contract. -/
theorem getGoogleAuth_ok {e k : String} (he : e ≠ "") (hk : k ≠ "") :
    getGoogleAuth (some e) (some k) =
      .ok { client_email := e, private_key := jsReplaceAll k "\\n" "\n", scopes := authScopes } := by
  have hrep : ("\n" : String) ≠ "" := by decide
  simp [getGoogleAuth, jsFalsyOpt_some_ne he, jsFalsyOpt_some_ne (jsReplaceAll_ne_empty hk hrep)]

/-- The loop never performs more checks than its remaining budget. -/
theorem pollLoop_ok_le (g : Nat → Except String String) :
    ∀ fuel a b n, pollLoop g fuel a = .ok (b, n) → n ≤ a + fuel := by
  intro fuel
  induction fuel with
  | zero =>
      intro a b n h
      simp [pollLoop] at h
      omega
  | succ f ih =>
      intro a b n h
      rw [pollLoop] at h
      rcases hg : g a with e | s <;> rw [hg] at h
      · exact absurd h (by simp)
      · by_cases hs : s = "COMPLETED"
        · simp [hs] at h
          omega
        · simp [hs] at h
          have := ih (a + 1) b n h
          omega

/-- If every polled status in the budget is a non-`COMPLETED` success, the
loop exhausts its budget and ends not ready. -/
theorem pollLoop_timeout (g : Nat → Except String String) :
    ∀ fuel a, (∀ j, j < fuel → ∃ s, g (a + j) = .ok s ∧ s ≠ "COMPLETED") →
      pollLoop g fuel a = .ok (false, a + fuel) := by
  intro fuel
  induction fuel with
  | zero => intro a _; simp [pollLoop]
  | succ f ih =>
      intro a h
      obtain ⟨s, hgs, hne⟩ := h 0 (Nat.succ_pos f)
      rw [Nat.add_zero] at hgs
      rw [pollLoop, hgs]
      simp only [hne, decide_eq_false hne, Bool.false_eq_true, if_false]
      have hrec := ih (a + 1) (fun j hj => by
        obtain ⟨s', h1, h2⟩ := h (j + 1) (by omega)
        exact ⟨s', by rwa [show a + 1 + j = a + (j + 1) by omega], h2⟩)
      rw [hrec]
      simp
      omega

/-- If the first `COMPLETED` status appears at attempt index `i` within the
budget, the loop stops right after that check. -/
theorem pollLoop_early (g : Nat → Except String String) :
    ∀ i fuel a, i < fuel →
      (∀ j, j < i → ∃ s, g (a + j) = .ok s ∧ s ≠ "COMPLETED") →
      g (a + i) = .ok "COMPLETED" →
      pollLoop g fuel a = .ok (true, a + i + 1) := by
  intro i
  induction i with
  | zero =>
      intro fuel a hlt _ hc
      obtain ⟨f, rfl⟩ : ∃ f, fuel = f + 1 := ⟨fuel - 1, by omega⟩
      rw [Nat.add_zero] at hc
      rw [pollLoop, hc]
      simp
  | succ i ih =>
      intro fuel a hlt h hc
      obtain ⟨f, rfl⟩ : ∃ f, fuel = f + 1 := ⟨fuel - 1, by omega⟩
      obtain ⟨s, hgs, hne⟩ := h 0 (Nat.succ_pos i)
      rw [Nat.add_zero] at hgs
      rw [pollLoop, hgs]
      simp only [hne, decide_eq_false hne, Bool.false_eq_true, if_false]
      have hrec := ih f (a + 1) (by omega)
        (fun j hj => by
          obtain ⟨s', h1, h2⟩ := h (j + 1) (by omega)
          exact ⟨s', by rwa [show a + 1 + j = a + (j + 1) by omega], h2⟩)
        (by rwa [show a + 1 + i = a + (i + 1) by omega])
      rw [hrec]
      simp
      omega

/-- Unfolding of the `/admanager-revenue` handler once validation passes. -/
theorem revenueStep_valid (env : RevEnv) {utm sd ed : String} (ws : Option String)
    (hu : utm ≠ "") (hs : sd ≠ "") (he : ed ≠ "") :
    revenueStep env ⟨some utm, ws, some sd, some ed⟩ =
      (match (runPipeline env utm sd ed).1 with
       | .ok (total, recs) =>
           { status := 200, success := true, totalRevenue := some total, source := some "real",
             utmCampaign := some utm, websiteUrl := some ws,
             period := some (sd, ed), recordsFound := some recs }
       | .error msg => mockResp msg,
       (runPipeline env utm sd ed).2) := by
  simp [revenueStep, jsFalsyOpt_some_ne hu, jsFalsyOpt_some_ne hs, jsFalsyOpt_some_ne he]

/-! ### Claim theorems -/

/-- C8: credential construction fails with a descriptive error whenever the
service-account email or the private key is absent or empty, and succeeds
when both are non-empty, normalizing every escaped newline sequence in the
key into a literal newline. -/
theorem c8_credential_provider (emailVar keyVar : Option String) :
    ((emailVar = none ∨ emailVar = some "" ∨ keyVar = none ∨ keyVar = some "") →
      getGoogleAuth emailVar keyVar = .error credErrorMsg) ∧
    (∀ e k, emailVar = some e → keyVar = some k → e ≠ "" → k ≠ "" →
      getGoogleAuth emailVar keyVar =
        .ok { client_email := e
              private_key := jsReplaceAll k "\\n" "\n"
              scopes := authScopes }) := by
  constructor
  · exact getGoogleAuth_falsy
  · rintro e k rfl rfl he hk
    exact getGoogleAuth_ok he hk

/-- Witness for C8 at a concrete email and a key containing one escaped
newline. -/
theorem c8_credential_provider_witness :
    getGoogleAuth (some "svc@example.com") (some "a\\nb") =
      .ok { client_email := "svc@example.com"
            private_key := jsReplaceAll "a\\nb" "\\n" "\n"
            scopes := authScopes } ∧
    jsReplaceAll "a\\nb" "\\n" "\n" = "a\nb" :=
  ⟨(c8_credential_provider (some "svc@example.com") (some "a\\nb")).2 "svc@example.com" "a\\nb"
      rfl rfl (by decide) (by decide),
   by decide⟩

/-- C5: a request missing any of utmCampaign, startDate, endDate gets a 400
response with success false, and no report job is submitted. -/
theorem c5_missing_params (env : RevEnv) (b : RevenueBody)
    (h : b.utmCampaign = none ∨ b.startDate = none ∨ b.endDate = none) :
    (revenueStep env b).1.status = 400 ∧ (revenueStep env b).1.success = false ∧
    (revenueStep env b).2 = none := by
  have hval : (jsFalsyOpt b.utmCampaign || jsFalsyOpt b.startDate || jsFalsyOpt b.endDate) = true := by
    rcases h with h | h | h <;> simp [jsFalsyOpt, h]
  simp [revenueStep, hval, missingParamsResp]

/-- Witness for C5: a body without a startDate. -/
theorem c5_missing_params_witness :
    (revenueStep
        { emailVar := some "svc@example.com", keyVar := some "KEY", getClient := .ok (),
          runReportJob := fun _ => .ok 0, getStatus := fun _ _ => .ok "PENDING",
          getDownloadURL := fun _ => .ok "u", fetchText := fun _ => .ok "" }
        ⟨some "camp", some "https://site.example", none, some "2024-01-31"⟩).1.status = 400 ∧
    (revenueStep
        { emailVar := some "svc@example.com", keyVar := some "KEY", getClient := .ok (),
          runReportJob := fun _ => .ok 0, getStatus := fun _ _ => .ok "PENDING",
          getDownloadURL := fun _ => .ok "u", fetchText := fun _ => .ok "" }
        ⟨some "camp", some "https://site.example", none, some "2024-01-31"⟩).1.success = false ∧
    (revenueStep
        { emailVar := some "svc@example.com", keyVar := some "KEY", getClient := .ok (),
          runReportJob := fun _ => .ok 0, getStatus := fun _ _ => .ok "PENDING",
          getDownloadURL := fun _ => .ok "u", fetchText := fun _ => .ok "" }
        ⟨some "camp", some "https://site.example", none, some "2024-01-31"⟩).2 = none :=
  c5_missing_params _ _ (Or.inr (Or.inl rfl))

/-- C9: supplying utmCampaign, startDate or endDate as an empty string is
rejected with the same 400 response as if the field were absent, and no job
is submitted. -/
theorem c9_empty_string_like_missing (env : RevEnv) (b : RevenueBody)
    (h : b.utmCampaign = some "" ∨ b.startDate = some "" ∨ b.endDate = some "") :
    (revenueStep env b).1.status = 400 ∧ (revenueStep env b).1.success = false ∧
    (revenueStep env b).2 = none ∧
    (∀ (env2 : RevEnv) (b2 : RevenueBody),
      (b2.utmCampaign = none ∨ b2.startDate = none ∨ b2.endDate = none) →
      revenueStep env b = revenueStep env2 b2) := by
  have hval : (jsFalsyOpt b.utmCampaign || jsFalsyOpt b.startDate || jsFalsyOpt b.endDate) = true := by
    rcases h with h | h | h <;> simp [jsFalsyOpt, h]
  refine ⟨by simp [revenueStep, hval, missingParamsResp],
          by simp [revenueStep, hval, missingParamsResp],
          by simp [revenueStep, hval], ?_⟩
  intro env2 b2 h2
  have hval2 : (jsFalsyOpt b2.utmCampaign || jsFalsyOpt b2.startDate || jsFalsyOpt b2.endDate) = true := by
    rcases h2 with h2 | h2 | h2 <;> simp [jsFalsyOpt, h2]
  simp [revenueStep, hval, hval2]

/-- Witness for C9: an empty utmCampaign behaves exactly like the body with
no utmCampaign at all. -/
theorem c9_empty_string_like_missing_witness :
    (revenueStep
        { emailVar := some "svc@example.com", keyVar := some "KEY", getClient := .ok (),
          runReportJob := fun _ => .ok 0, getStatus := fun _ _ => .ok "PENDING",
          getDownloadURL := fun _ => .ok "u", fetchText := fun _ => .ok "" }
        ⟨some "", none, some "2024-01-01", some "2024-01-31"⟩).1.status = 400 ∧
    (revenueStep
        { emailVar := some "svc@example.com", keyVar := some "KEY", getClient := .ok (),
          runReportJob := fun _ => .ok 0, getStatus := fun _ _ => .ok "PENDING",
          getDownloadURL := fun _ => .ok "u", fetchText := fun _ => .ok "" }
        ⟨some "", none, some "2024-01-01", some "2024-01-31"⟩).1.success = false ∧
    (revenueStep
        { emailVar := some "svc@example.com", keyVar := some "KEY", getClient := .ok (),
          runReportJob := fun _ => .ok 0, getStatus := fun _ _ => .ok "PENDING",
          getDownloadURL := fun _ => .ok "u", fetchText := fun _ => .ok "" }
        ⟨some "", none, some "2024-01-01", some "2024-01-31"⟩).2 = none ∧
    (∀ (env2 : RevEnv) (b2 : RevenueBody),
      (b2.utmCampaign = none ∨ b2.startDate = none ∨ b2.endDate = none) →
      revenueStep
        { emailVar := some "svc@example.com", keyVar := some "KEY", getClient := .ok (),
          runReportJob := fun _ => .ok 0, getStatus := fun _ _ => .ok "PENDING",
          getDownloadURL := fun _ => .ok "u", fetchText := fun _ => .ok "" }
        ⟨some "", none, some "2024-01-01", some "2024-01-31"⟩ = revenueStep env2 b2) :=
  c9_empty_string_like_missing _ _ (Or.inl rfl)


/-- C2: when validation passes and any pipeline step fails with message
`msg`, the response is HTTP 200 with success true, totalRevenue 0, source
"mock" and the error message; no non-200 status is produced. -/
theorem c2_failure_masked_as_mock (env : RevEnv) (utm sd ed : String) (ws : Option String)
    (msg : String) (hu : utm ≠ "") (hs : sd ≠ "") (he : ed ≠ "")
    (hfail : (runPipeline env utm sd ed).1 = .error msg) :
    (revenueStep env ⟨some utm, ws, some sd, some ed⟩).1.status = 200 ∧
    (revenueStep env ⟨some utm, ws, some sd, some ed⟩).1.success = true ∧
    (revenueStep env ⟨some utm, ws, some sd, some ed⟩).1.totalRevenue = some 0 ∧
    (revenueStep env ⟨some utm, ws, some sd, some ed⟩).1.source = some "mock" ∧
    (revenueStep env ⟨some utm, ws, some sd, some ed⟩).1.error = some msg := by
  rw [revenueStep_valid env ws hu hs he]
  simp [hfail, mockResp]

/-- Witness for C2: missing credentials make the pipeline fail, and the
response is the 200 mock payload. -/
theorem c2_failure_masked_as_mock_witness :
    (revenueStep
        { emailVar := none, keyVar := none, getClient := .ok (),
          runReportJob := fun _ => .ok 0, getStatus := fun _ _ => .ok "PENDING",
          getDownloadURL := fun _ => .ok "u", fetchText := fun _ => .ok "" }
        ⟨some "camp", some "https://site.example", some "2024-01-01", some "2024-01-31"⟩).1.status = 200 ∧
    (revenueStep
        { emailVar := none, keyVar := none, getClient := .ok (),
          runReportJob := fun _ => .ok 0, getStatus := fun _ _ => .ok "PENDING",
          getDownloadURL := fun _ => .ok "u", fetchText := fun _ => .ok "" }
        ⟨some "camp", some "https://site.example", some "2024-01-01", some "2024-01-31"⟩).1.success = true ∧
    (revenueStep
        { emailVar := none, keyVar := none, getClient := .ok (),
          runReportJob := fun _ => .ok 0, getStatus := fun _ _ => .ok "PENDING",
          getDownloadURL := fun _ => .ok "u", fetchText := fun _ => .ok "" }
        ⟨some "camp", some "https://site.example", some "2024-01-01", some "2024-01-31"⟩).1.totalRevenue = some 0 ∧
    (revenueStep
        { emailVar := none, keyVar := none, getClient := .ok (),
          runReportJob := fun _ => .ok 0, getStatus := fun _ _ => .ok "PENDING",
          getDownloadURL := fun _ => .ok "u", fetchText := fun _ => .ok "" }
        ⟨some "camp", some "https://site.example", some "2024-01-01", some "2024-01-31"⟩).1.source = some "mock" ∧
    (revenueStep
        { emailVar := none, keyVar := none, getClient := .ok (),
          runReportJob := fun _ => .ok 0, getStatus := fun _ _ => .ok "PENDING",
          getDownloadURL := fun _ => .ok "u", fetchText := fun _ => .ok "" }
        ⟨some "camp", some "https://site.example", some "2024-01-01", some "2024-01-31"⟩).1.error =
      some credErrorMsg :=
  c2_failure_masked_as_mock _ "camp" "2024-01-01" "2024-01-31" (some "https://site.example")
    credErrorMsg (by decide) (by decide) (by decide) rfl

/-- C6: in the mock fallback, the requiresAuth flag is true exactly when
the caught error message contains "auth" or "credential" as a
case-sensitive substring. -/
theorem c6_requiresAuth_iff (env : RevEnv) (utm sd ed : String) (ws : Option String)
    (msg : String) (hu : utm ≠ "") (hs : sd ≠ "") (he : ed ≠ "")
    (hfail : (runPipeline env utm sd ed).1 = .error msg) :
    ((revenueStep env ⟨some utm, ws, some sd, some ed⟩).1.requiresAuth = some true ↔
      ("auth".data <:+: msg.data ∨ "credential".data <:+: msg.data)) := by
  rw [revenueStep_valid env ws hu hs he]
  simp [hfail, mockResp, strContains_iff]

/-- Witness for C6: a client failure whose message contains "credential"
sets requiresAuth. -/
theorem c6_requiresAuth_iff_witness :
    ((revenueStep
        { emailVar := some "svc@example.com", keyVar := some "KEY", getClient := .error "invalid credential",
          runReportJob := fun _ => .ok 0, getStatus := fun _ _ => .ok "PENDING",
          getDownloadURL := fun _ => .ok "u", fetchText := fun _ => .ok "" }
        ⟨some "camp", none, some "2024-01-01", some "2024-01-31"⟩).1.requiresAuth = some true ↔
      ("auth".data <:+: "invalid credential".data ∨ "credential".data <:+: "invalid credential".data)) :=
  c6_requiresAuth_iff _ "camp" "2024-01-01" "2024-01-31" none "invalid credential"
    (by decide) (by decide) (by decide) rfl


/-- C3: the polling phase performs at most 30 status checks, stops right
after the first check reporting COMPLETED, and raises the timeout error if
no check within the 30 attempts reports COMPLETED — in which case the
handler masks it as the mock result. -/
theorem c3_polling_budget (g : Nat → Except String String) :
    (∀ n, pollReport g = .ok n → n ≤ 30) ∧
    (∀ i, i < 30 → (∀ j, j < i → ∃ s, g j = .ok s ∧ s ≠ "COMPLETED") →
      g i = .ok "COMPLETED" → pollReport g = .ok (i + 1)) ∧
    ((∀ j, j < 30 → ∃ s, g j = .ok s ∧ s ≠ "COMPLETED") → pollReport g = .error timeoutMsg) ∧
    (∀ (env : RevEnv) (utm sd ed : String) (ws : Option String) (jobId : Nat),
      utm ≠ "" → sd ≠ "" → ed ≠ "" →
      (∃ c, getGoogleAuth env.emailVar env.keyVar = .ok c) →
      env.getClient = .ok () →
      env.runReportJob (buildReportJob utm sd ed) = .ok jobId →
      (∀ j, j < 30 → ∃ s, env.getStatus jobId j = .ok s ∧ s ≠ "COMPLETED") →
      (revenueStep env ⟨some utm, ws, some sd, some ed⟩).1 = mockResp timeoutMsg) := by
  have htimeout : ∀ (h : Nat → Except String String),
      (∀ j, j < 30 → ∃ s, h j = .ok s ∧ s ≠ "COMPLETED") → pollReport h = .error timeoutMsg := by
    intro h hall
    have := pollLoop_timeout h 30 0 (fun j hj => by simpa using hall j hj)
    simp [pollReport, maxAttempts, this]
  refine ⟨?_, ?_, htimeout g, ?_⟩
  · intro n h
    rw [pollReport] at h
    rcases hp : pollLoop g maxAttempts 0 with e | ⟨b, m⟩ <;> rw [hp] at h
    · exact absurd h (by simp)
    · cases b
      · exact absurd h (by simp)
      · have hle := pollLoop_ok_le g maxAttempts 0 true m hp
        simp at h
        rw [maxAttempts] at hle
        omega
  · intro i hi hbefore hc
    have := pollLoop_early g i 30 0 hi (fun j hj => by simpa using hbefore j hj) (by simpa using hc)
    simp [pollReport, maxAttempts, this]
  · intro env utm sd ed ws jobId hu hs he ⟨c, hc⟩ hclient hrun hall
    have hpoll := htimeout (env.getStatus jobId) hall
    have hfail : (runPipeline env utm sd ed).1 = .error timeoutMsg := by
      simp [runPipeline, hc, hclient, runReportPhase, hrun, hpoll]
    rw [revenueStep_valid env ws hu hs he]
    simp [hfail]

/-- Witness for C3: statuses that are never COMPLETED exhaust the budget
and produce the timeout error. -/
theorem c3_polling_budget_witness :
    pollReport (fun _ => .ok "PENDING") = .error timeoutMsg :=
  (c3_polling_budget (fun _ => .ok "PENDING")).2.2.1
    (fun _ _ => ⟨"PENDING", rfl, by decide⟩)


/-- C4 counterexample: with every configuration value present, an external
failure whose message happens to contain "not configured" is still mapped
to HTTP 400 with requiresSetup, not to the 500 the claim promises for
non-missing-configuration failures. -/
theorem c4_counterexample :
    (handleTestConnection
        { emailVar := some "svc@example.com", keyVar := some "KEY", getClient := .ok (),
          networkCodeVar := some "123456",
          getCurrentNetwork := .error "backend replied: not configured" }).status = 400 ∧
    (handleTestConnection
        { emailVar := some "svc@example.com", keyVar := some "KEY", getClient := .ok (),
          networkCodeVar := some "123456",
          getCurrentNetwork := .error "backend replied: not configured" }).status ≠ 500 ∧
    (handleTestConnection
        { emailVar := some "svc@example.com", keyVar := some "KEY", getClient := .ok (),
          networkCodeVar := some "123456",
          getCurrentNetwork := .error "backend replied: not configured" }).requiresSetup =
      some true := by
  refine ⟨by decide, by decide, by decide⟩

/-- C4 amended: `/test-connection` classifies a failure by case-sensitive
substring match on its message — a match of "não configurad" or
"not configured" yields 400 with requiresSetup true and the fixed setup
text, any other failure yields 500 with requiresSetup false and the
original message; missing credentials and a missing network code do
produce matching messages, and success returns 200 with the six
networkInfo fields. -/
theorem c4_amended_classification (env : TestConnEnv) :
    (∀ net, testConnPipeline env = .ok net →
      handleTestConnection env =
        { status := 200, success := true, networkInfo := some net,
          message := some "Service Account conectado com sucesso!" }) ∧
    (∀ msg, testConnPipeline env = .error msg →
      ((strContains msg "não configurad" || strContains msg "not configured") = true →
        handleTestConnection env =
          { status := 400, success := false, error := some setupErrorMsg,
            requiresSetup := some true }) ∧
      ((strContains msg "não configurad" || strContains msg "not configured") = false →
        handleTestConnection env =
          { status := 500, success := false, error := some msg,
            requiresSetup := some false })) ∧
    ((env.emailVar = none ∨ env.emailVar = some "" ∨ env.keyVar = none ∨ env.keyVar = some "") →
      (handleTestConnection env).status = 400 ∧
      (handleTestConnection env).requiresSetup = some true) ∧
    ((∃ c, getGoogleAuth env.emailVar env.keyVar = .ok c) → env.getClient = .ok () →
      (env.networkCodeVar = none ∨ env.networkCodeVar = some "") →
      (handleTestConnection env).status = 400 ∧
      (handleTestConnection env).requiresSetup = some true) := by
  have hcred : strContains credErrorMsg "não configurad" = true := by decide
  have hnet : strContains networkCodeErrorMsg "não configurad" = true := by decide
  refine ⟨?_, ?_, ?_, ?_⟩
  · intro net h
    simp [handleTestConnection, h]
  · intro msg h
    constructor <;> intro hcl <;> simp [handleTestConnection, h, hcl]
  · intro h
    have hpipe : testConnPipeline env = .error credErrorMsg := by
      simp [testConnPipeline, getGoogleAuth_falsy h]
    simp [handleTestConnection, hpipe, hcred]
  · rintro ⟨c, hc⟩ hclient hnc
    have hfalsy : jsFalsyOpt env.networkCodeVar = true := by
      rcases hnc with hnc | hnc <;> simp [jsFalsyOpt, hnc]
    have hpipe : testConnPipeline env = .error networkCodeErrorMsg := by
      simp [testConnPipeline, hc, hclient, hfalsy]
    simp [handleTestConnection, hpipe, hnet]

/-- Witness for C4 amended: absent credentials yield 400 with
requiresSetup. -/
theorem c4_amended_classification_witness :
    (handleTestConnection
        { emailVar := none, keyVar := some "KEY", getClient := .ok (),
          networkCodeVar := some "123456",
          getCurrentNetwork := .error "boom" }).status = 400 ∧
    (handleTestConnection
        { emailVar := none, keyVar := some "KEY", getClient := .ok (),
          networkCodeVar := some "123456",
          getCurrentNetwork := .error "boom" }).requiresSetup = some true :=
  (c4_amended_classification _).2.2.1 (Or.inl rfl)

/-- C7 counterexample: a startDate that does not parse as YYYY-MM-DD passes
validation, and a report job is still built and submitted from it, with a
NaN year component. -/
theorem c7_counterexample :
    specIsYYYYMMDD "not-a-date" = false ∧
    (revenueStep
        { emailVar := some "svc@example.com", keyVar := some "KEY", getClient := .ok (),
          runReportJob := fun _ => .ok 7, getStatus := fun _ _ => .ok "COMPLETED",
          getDownloadURL := fun _ => .ok "u", fetchText := fun _ => .ok "header\n" }
        ⟨some "camp", none, some "not-a-date", some "2024-01-31"⟩).2 =
      some (buildReportJob "camp" "not-a-date" "2024-01-31") ∧
    (buildReportJob "camp" "not-a-date" "2024-01-31").startDate.year = none := by
  refine ⟨by decide, by decide, by decide⟩

/-- C7 amended: no date-format validation exists — whenever the three
required fields are non-empty and the auth steps succeed, the job built
from the raw date strings is submitted, whatever their format. -/
theorem c7_amended_no_date_validation (env : RevEnv) (utm sd ed : String) (ws : Option String)
    (hu : utm ≠ "") (hs : sd ≠ "") (he : ed ≠ "")
    (hauth : ∃ c, getGoogleAuth env.emailVar env.keyVar = .ok c)
    (hclient : env.getClient = .ok ()) :
    (revenueStep env ⟨some utm, ws, some sd, some ed⟩).2 = some (buildReportJob utm sd ed) := by
  obtain ⟨c, hc⟩ := hauth
  rw [revenueStep_valid env ws hu hs he]
  simp [runPipeline, hc, hclient]

/-- Witness for C7 amended: a malformed date still reaches job
submission. -/
theorem c7_amended_no_date_validation_witness :
    (revenueStep
        { emailVar := some "svc@example.com", keyVar := some "KEY", getClient := .ok (),
          runReportJob := fun _ => .ok 7, getStatus := fun _ _ => .ok "COMPLETED",
          getDownloadURL := fun _ => .ok "u", fetchText := fun _ => .ok "header\n" }
        ⟨some "camp", none, some "99/99", some "whenever"⟩).2 =
      some (buildReportJob "camp" "99/99" "whenever") :=
  c7_amended_no_date_validation _ "camp" "99/99" "whenever" none
    (by decide) (by decide) (by decide) ⟨_, rfl⟩ rfl


/-- C10: websiteUrl never influences the computation — two requests equal
up to websiteUrl submit the same job and produce responses equal in every
field except the websiteUrl echo, and a websiteUrl present in the response
is exactly the one supplied. -/
theorem c10_websiteUrl_noninterference (env : RevEnv) (b : RevenueBody) (w1 w2 : Option String) :
    (revenueStep env { b with websiteUrl := w1 }).2 = (revenueStep env { b with websiteUrl := w2 }).2 ∧
    (revenueStep env { b with websiteUrl := w1 }).1 =
      { (revenueStep env { b with websiteUrl := w2 }).1 with
        websiteUrl := (revenueStep env { b with websiteUrl := w1 }).1.websiteUrl } ∧
    (∀ r, (revenueStep env { b with websiteUrl := w1 }).1.websiteUrl = some r → r = w1) := by
  by_cases hval :
      (jsFalsyOpt b.utmCampaign || jsFalsyOpt b.startDate || jsFalsyOpt b.endDate) = true
  · refine ⟨by simp [revenueStep, hval], by simp [revenueStep, hval, missingParamsResp], ?_⟩
    simp [revenueStep, hval, missingParamsResp]
  · rcases hp : (runPipeline env (b.utmCampaign.getD "") (b.startDate.getD "") (b.endDate.getD "")).1
      with msg | ⟨t, r⟩
    · refine ⟨by simp [revenueStep, hval], by simp [revenueStep, hval, hp, mockResp], ?_⟩
      simp [revenueStep, hval, hp, mockResp]
    · refine ⟨by simp [revenueStep, hval], by simp [revenueStep, hval, hp], ?_⟩
      simp [revenueStep, hval, hp]

/-- Witness for C10 at concrete bodies differing only in websiteUrl. -/
theorem c10_websiteUrl_noninterference_witness :
    (revenueStep
        { emailVar := none, keyVar := none, getClient := .ok (),
          runReportJob := fun _ => .ok 0, getStatus := fun _ _ => .ok "PENDING",
          getDownloadURL := fun _ => .ok "u", fetchText := fun _ => .ok "" }
        { utmCampaign := some "camp", websiteUrl := some "https://a.example",
          startDate := some "2024-01-01", endDate := some "2024-01-31" }).2 =
      (revenueStep
        { emailVar := none, keyVar := none, getClient := .ok (),
          runReportJob := fun _ => .ok 0, getStatus := fun _ _ => .ok "PENDING",
          getDownloadURL := fun _ => .ok "u", fetchText := fun _ => .ok "" }
        { utmCampaign := some "camp", websiteUrl := some "https://b.example",
          startDate := some "2024-01-01", endDate := some "2024-01-31" }).2 ∧
    (revenueStep
        { emailVar := none, keyVar := none, getClient := .ok (),
          runReportJob := fun _ => .ok 0, getStatus := fun _ _ => .ok "PENDING",
          getDownloadURL := fun _ => .ok "u", fetchText := fun _ => .ok "" }
        { utmCampaign := some "camp", websiteUrl := some "https://a.example",
          startDate := some "2024-01-01", endDate := some "2024-01-31" }).1 =
      { (revenueStep
          { emailVar := none, keyVar := none, getClient := .ok (),
            runReportJob := fun _ => .ok 0, getStatus := fun _ _ => .ok "PENDING",
            getDownloadURL := fun _ => .ok "u", fetchText := fun _ => .ok "" }
          { utmCampaign := some "camp", websiteUrl := some "https://b.example",
            startDate := some "2024-01-01", endDate := some "2024-01-31" }).1 with
        websiteUrl :=
          (revenueStep
            { emailVar := none, keyVar := none, getClient := .ok (),
              runReportJob := fun _ => .ok 0, getStatus := fun _ _ => .ok "PENDING",
              getDownloadURL := fun _ => .ok "u", fetchText := fun _ => .ok "" }
            { utmCampaign := some "camp", websiteUrl := some "https://a.example",
              startDate := some "2024-01-01", endDate := some "2024-01-31" }).1.websiteUrl } :=
  ⟨(c10_websiteUrl_noninterference _
      { utmCampaign := some "camp", websiteUrl := none,
        startDate := some "2024-01-01", endDate := some "2024-01-31" }
      (some "https://a.example") (some "https://b.example")).1,
   (c10_websiteUrl_noninterference _
      { utmCampaign := some "camp", websiteUrl := none,
        startDate := some "2024-01-01", endDate := some "2024-01-31" }
      (some "https://a.example") (some "https://b.example")).2.1⟩

/-- Evaluation of the aggregation on the spec example: the sum is 20, but
`recordsFound` is the post-header line count minus one, i.e. 2. -/
theorem aggregateCSV_c1 : aggregateCSV c1csv = (20, 2) := by
  have hl : (jsSplit '\n' c1csv).drop 1 = ["A,B,12.5", "C,D,bad", "E,F,7.5"] := by decide
  have h1 : jsParseFloatParts "12.5" = some (false, ['1', '2'], ['5'], 0) := by decide
  have h2 : jsParseFloatParts "bad" = none := by decide
  have h3 : jsParseFloatParts "7.5" = some (false, ['7'], ['5'], 0) := by decide
  have hb1 : jsBlank "A,B,12.5" = false := by decide
  have hb2 : jsBlank "C,D,bad" = false := by decide
  have hb3 : jsBlank "E,F,7.5" = false := by decide
  have hc1 : jsSplit ',' "A,B,12.5" = ["A", "B", "12.5"] := by decide
  have hc2 : jsSplit ',' "C,D,bad" = ["C", "D", "bad"] := by decide
  have hc3 : jsSplit ',' "E,F,7.5" = ["E", "F", "7.5"] := by decide
  have d1 : digitsToNat ['1', '2'] = 12 := by decide
  have d2 : digitsToNat ['5'] = 5 := by decide
  have d3 : digitsToNat ['7'] = 7 := by decide
  simp [aggregateCSV, hl, hb1, hb2, hb3, lineRevenue, hc1, hc2, hc3,
        jsParseFloatOr0, jsParseFloat, h1, h2, h3, ratValue, pow10, d1, d2, d3]
  norm_num

/-- Full evaluation of the handler on the aggregation example. -/
theorem revenueStep_c1 :
    (revenueStep c1env c1body).1 =
      { status := 200, success := true, totalRevenue := some 20, source := some "real",
        utmCampaign := some "summer", websiteUrl := some none,
        period := some ("2024-01-01", "2024-01-31"), recordsFound := some 2 } := by
  have hga : getGoogleAuth (some "svc@example.com") (some "KEY") =
      .ok ⟨"svc@example.com", "KEY", authScopes⟩ := rfl
  have hpoll : pollReport (fun _ => (.ok "COMPLETED" : Except String String)) = .ok 1 := rfl
  have hpipe : (runPipeline c1env "summer" "2024-01-01" "2024-01-31").1 = .ok (20, 2) := by
    have h : (runPipeline c1env "summer" "2024-01-01" "2024-01-31").1 =
        .ok (aggregateCSV c1csv) := by
      simp [runPipeline, c1env, hga, runReportPhase, hpoll]
    rw [h, aggregateCSV_c1]
  have hb : c1body = ⟨some "summer", none, some "2024-01-01", some "2024-01-31"⟩ := rfl
  rw [hb, revenueStep_valid c1env none (by decide) (by decide) (by decide)]
  simp [hpipe]

/-- C1 counterexample: on the spec CSV example the handler returns
recordsFound 2, not the 3 the claim states (the sum is indeed 20). -/
theorem c1_counterexample :
    (revenueStep c1env c1body).1.totalRevenue = some 20 ∧
    (revenueStep c1env c1body).1.recordsFound ≠ some 3 := by
  rw [revenueStep_c1]
  constructor <;> simp

/-- C1 amended: on the CSV body `header\nA,B,12.5\nC,D,bad\nE,F,7.5` the
aggregation yields totalRevenue 20 and recordsFound 2 — the code reports
the post-header line count minus one, which undercounts by one when the
body lacks a trailing newline. -/
theorem c1_amended_aggregation :
    aggregateCSV c1csv = (20, 2) ∧
    (revenueStep c1env c1body).1.totalRevenue = some 20 ∧
    (revenueStep c1env c1body).1.recordsFound = some 2 ∧
    (revenueStep c1env c1body).1.source = some "real" := by
  refine ⟨aggregateCSV_c1, ?_, ?_, ?_⟩ <;> rw [revenueStep_c1]


end AdManager
